import Mathlib

/-!
# Verification of the 2020YtaRobot drivetrain core

Shallow embedding of the drivetrain control core:

* `TalonMotorGroup` (TalonMotorGroup.hpp / TalonMotorGroup.cpp) — a group of
  CAN Talon speed controllers acting as one logical actuator.  Motor commands
  are doubles in the source; the only arithmetic performed on them is
  negation and addition, so they are modelled as rationals.  A call to the
  hardware `TalonSRX::Set(ControlMode::PercentOutput, v)` on the controller
  with CAN id `c` is modelled as the observable command pair `(c, v)`.

* `YtaRobot::DirectionalAlign` (YtaRobot.cpp) — the two-state drive state
  machine (manual control vs. autonomous directional alignment), driven once
  per control-loop tick.  The statics `lastPovValue`, `bStateChangeAllowed`,
  `destinationAngle`, the member `m_RobotDriveState` and the safety timer
  are gathered into an explicit state record; the tick function consumes the
  per-tick inputs (POV reading, gyro heading cast to int, and the real time
  elapsed since the previous tick, which feeds the free-running timer).

* `YtaRobot::DirectionalInch` (YtaRobot.cpp) — the blocking inching
  maneuver; its observable behavior is the ordered trace of drive commands
  it issues and its boolean return value.
-/

set_option linter.unusedVariables false

namespace YtaRobot2020

/-- `TalonMotorGroup::MotorGroupControlMode` (TalonMotorGroup.hpp). -/
inductive MotorGroupControlMode
  | MASTER
  | FOLLOW
  | INDEPENDENT
  | INVERSE
  | INDEPENDENT_OFFSET
  | INVERSE_OFFSET
  | CUSTOM
  deriving DecidableEq, Repr

/-- `TalonMotorGroup::MotorInfo`: control mode and CAN id of one motor.
The owned `TalonSRX *` handle is represented by its CAN id alone, since the
only observable interaction modelled is the commands sent to that id. -/
structure MotorInfo where
  controlMode : MotorGroupControlMode
  canId : Int
  deriving DecidableEq, Repr

/-- State of a `TalonMotorGroup`.  `numMotors` is the stored member
`m_NumMotors`; `motorsInfo` is the list of `MotorInfo` objects that were
actually constructed (the populated prefix of `m_pMotorsInfo`).  In the
source these can disagree: the constructor clamps its creation loop at
`MAX_NUMBER_OF_MOTORS` but stores the unclamped count in `m_NumMotors`. -/
structure TalonMotorGroup where
  numMotors : Int
  masterCanId : Int
  motorsInfo : List MotorInfo
  deriving DecidableEq, Repr

namespace TalonMotorGroup

/-- `TalonMotorGroup::MAX_NUMBER_OF_MOTORS = 4`. -/
def MAX_NUMBER_OF_MOTORS : Int := 4

/-- The constructor `TalonMotorGroup::TalonMotorGroup(numMotors, masterCanId,
nonMasterControlMode, sensor)`.  The creation loop runs for
`i < numMotors && i < MAX_NUMBER_OF_MOTORS`; entry 0 is `MASTER` at
`masterCanId`, entry `i > 0` gets `nonMasterControlMode` and CAN id
`masterCanId + i`.  Note that the member `m_NumMotors` is initialized to the
unclamped `numMotors` argument.  Sensor configuration and the
construction-time `Set(ControlMode::Follower, masterCanId)` hardware wiring
of `FOLLOW` motors touch only the controller hardware and are not part of
the command trace modelled here. -/
def create (numMotors masterCanId : Int) (nonMasterControlMode : MotorGroupControlMode) :
    TalonMotorGroup :=
  { numMotors := numMotors
    masterCanId := masterCanId
    motorsInfo :=
      (List.range (min numMotors MAX_NUMBER_OF_MOTORS).toNat).map fun i =>
        if i = 0 then
          { controlMode := .MASTER, canId := masterCanId }
        else
          { controlMode := nonMasterControlMode, canId := masterCanId + i } }

/-- The per-motor body of the loop in `TalonMotorGroup::Set(value, offset)`
(TalonMotorGroup.cpp).  `bCallSet` starts `true` and `valueToSet` starts
`0.0`; the switch assigns `valueToSet` per control mode and clears
`bCallSet` only in the `FOLLOW` case.  The `default` case — reached for
`CUSTOM` motors — leaves `bCallSet` true, so a `CUSTOM` motor is commanded
with the untouched `valueToSet = 0.0`.  The result is the command issued to
this motor's controller, or `none` when no `Set` call is made. -/
def motorSetCommand (m : MotorInfo) (value offset : ℚ) : Option (Int × ℚ) :=
  match m.controlMode with
  | .MASTER => some (m.canId, value)
  | .INDEPENDENT => some (m.canId, value)
  | .FOLLOW => none
  | .INVERSE => some (m.canId, -value)
  | .INDEPENDENT_OFFSET => some (m.canId, value + offset)
  | .INVERSE_OFFSET => some (m.canId, -(value + offset))
  | .CUSTOM => some (m.canId, 0)

/-- `TalonMotorGroup::Set(value, offset)`: the ordered trace of commands
issued to the group's controllers, one loop iteration per constructed
motor.  (The source loop bound is `i < m_NumMotors`; iterating the
constructed entries coincides with it exactly when `m_NumMotors` equals the
number of constructed motors — see `C3` for the case where it does not.)  The source
declares `offset` with default value `0.0`; here it is always passed. -/
def Set (g : TalonMotorGroup) (value offset : ℚ) : List (Int × ℚ) :=
  g.motorsInfo.filterMap fun m => motorSetCommand m value offset

/-- CAN id of the first motor in the group, `m_pMotorsInfo[0]->m_CanId`.
The source expression is only meaningful for a group holding at least one
motor; the empty case is given a dummy value to keep the model total. -/
def firstCanId (g : TalonMotorGroup) : Int :=
  match g.motorsInfo with
  | [] => 0
  | m :: _ => m.canId

/-- `TalonMotorGroup::AddMotorToGroup(controlMode)`: if
`m_NumMotors < MAX_NUMBER_OF_MOTORS`, a new motor with CAN id
`m_pMotorsInfo[0]->m_CanId + m_NumMotors` is appended at index
`m_NumMotors`, the count is incremented and `true` is returned; otherwise
nothing changes and `false` is returned.  (The follower hardware wiring for
`controlMode == FOLLOW` is again not part of the modelled trace.) -/
def AddMotorToGroup (g : TalonMotorGroup) (controlMode : MotorGroupControlMode) :
    Bool × TalonMotorGroup :=
  if g.numMotors < MAX_NUMBER_OF_MOTORS then
    let newMotorCanId := g.firstCanId + g.numMotors
    (true,
      { g with
          motorsInfo := g.motorsInfo ++ [{ controlMode := controlMode, canId := newMotorCanId }]
          numMotors := g.numMotors + 1 })
  else
    (false, g)

end TalonMotorGroup

/-! ## Drive constants

`ANGLE_*` and `POV_NORMALIZATION_ANGLE` appear literally in YtaRobot.cpp.
The remaining numeric constants live in the repository's YtaRobot.hpp, which
is not among the provided sources; their values are modelled from the spec. -/

/-- `ANGLE_90_DEGREES` (YtaRobot.cpp uses it as the 90° sector size). -/
def ANGLE_90_DEGREES : Int := 90

/-- `ANGLE_180_DEGREES`. -/
def ANGLE_180_DEGREES : Int := 180

/-- `ANGLE_360_DEGREES`. -/
def ANGLE_360_DEGREES : Int := 360

/-- `const int POV_NORMALIZATION_ANGLE = 45` (local in `DirectionalAlign`). -/
def POV_NORMALIZATION_ANGLE : Int := 45

/-- Modelled from the spec: `OFF` (YtaRobot.hpp is not in the sources) — the
motor-off command value; the spec's exit actions command both sides to 0. -/
def OFF : ℚ := 0

/-- Modelled from the spec: `DIRECTIONAL_ALIGN_DRIVE_SPEED` (YtaRobot.hpp is
not in the sources) — the fixed alignment drive speed of §4.2 step 6. -/
def DIRECTIONAL_ALIGN_DRIVE_SPEED : ℚ := 1/2

/-- Modelled from the spec: `DIRECTIONAL_ALIGN_MAX_TIME_S` (YtaRobot.hpp is
not in the sources) — the bounded safety-timer maximum duration, in seconds. -/
def DIRECTIONAL_ALIGN_MAX_TIME_S : ℚ := 3

/-- Modelled from the spec: `INCHING_DRIVE_SPEED` (YtaRobot.hpp is not in
the sources) — the fixed, nonzero inching speed of §4.3. -/
def INCHING_DRIVE_SPEED : ℚ := 1/4

/-- Modelled from the spec: `INCHING_DRIVE_DELAY_S` (YtaRobot.hpp is not in
the sources) — the fixed inching duration, tens to low hundreds of ms. -/
def INCHING_DRIVE_DELAY_S : ℚ := 1/10

/-- Modelled from the spec: `LEFT_DRIVE_FORWARD_SCALAR` (YtaRobot.hpp is not
in the sources) — per-side forward sign scalar for the left drive side. -/
def LEFT_DRIVE_FORWARD_SCALAR : ℚ := 1

/-- Modelled from the spec: `LEFT_DRIVE_REVERSE_SCALAR` (YtaRobot.hpp is not
in the sources) — per-side reverse sign scalar for the left drive side. -/
def LEFT_DRIVE_REVERSE_SCALAR : ℚ := -1

/-- Modelled from the spec: `RIGHT_DRIVE_FORWARD_SCALAR` (YtaRobot.hpp is
not in the sources) — per-side forward sign scalar for the right side. -/
def RIGHT_DRIVE_FORWARD_SCALAR : ℚ := 1

/-- Modelled from the spec: `RIGHT_DRIVE_REVERSE_SCALAR` (YtaRobot.hpp is
not in the sources) — per-side reverse sign scalar for the right side. -/
def RIGHT_DRIVE_REVERSE_SCALAR : ℚ := -1

/-! ## DirectionalAlign state machine -/

/-- `YtaRobot::RobotDriveState` — the two drive states of the machine. -/
inductive RobotDriveState
  | MANUAL_CONTROL
  | DIRECTIONAL_ALIGN
  deriving DecidableEq, Repr

/-- Persistent state of `YtaRobot::DirectionalAlign` across ticks: the
function statics `lastPovValue`, `bStateChangeAllowed`, `destinationAngle`,
the member `m_RobotDriveState`, and the safety timer
`m_pDirectionalAlignTimer` (its accumulated seconds and running flag). -/
structure AlignState where
  lastPovValue : Int
  bStateChangeAllowed : Bool
  destinationAngle : Int
  driveState : RobotDriveState
  timerValue : ℚ
  timerRunning : Bool
  deriving DecidableEq, Repr

/-- Per-tick inputs of `DirectionalAlign`: the POV reading
`m_pDriveJoystick->GetPOV()` (−1 = none, else degrees in `[0, 360)`), the
gyro heading `static_cast<int>(GetGyroValue(BNO055))`, and the real time
(seconds) elapsed since the previous tick, which the free-running timer
accumulates while started. -/
structure AlignInput where
  povValue : Int
  heading : Int
  dt : ℚ
  deriving DecidableEq, Repr

/-- The POV edge-detection block at the top of `DirectionalAlign`: on a
change, a release (`povValue == -1`) clears the state-change latch and a
press from none (`lastPovValue == -1`) sets it; any other change leaves it
alone. -/
def latchUpdate (lastPovValue : Int) (bStateChangeAllowed : Bool) (povValue : Int) : Bool :=
  if povValue ≠ lastPovValue then
    if povValue = -1 then false
    else if lastPovValue = -1 then true
    else bStateChangeAllowed
  else bStateChangeAllowed

/-- Reading of the safety timer during the current tick: a started FRC
timer accumulates wall-clock time, so `Get()` returns the previous reading
plus the time elapsed since the last tick; a stopped timer holds its value. -/
def timerAdvance (value : ℚ) (running : Bool) (dt : ℚ) : ℚ :=
  if running then value + dt else value

/-- POV normalization of the `MANUAL_CONTROL` branch: add
`POV_NORMALIZATION_ANGLE`, wrap once at 360, then integer-divide by 90 and
multiply back, yielding the destination angle in `{0, 90, 180, 270}`. -/
def povToDestinationAngle (povValue : Int) : Int :=
  let p := povValue + POV_NORMALIZATION_ANGLE
  let p := if p ≥ ANGLE_360_DEGREES then p - ANGLE_360_DEGREES else p
  ANGLE_90_DEGREES * (p / ANGLE_90_DEGREES)

/-- Turn-direction selection of the `MANUAL_CONTROL` branch: left when
`angleDistance = startingAngle - destinationAngle > 0`, else right; then
both flags are inverted when `abs(angleDistance) > 180`.  Returns
`(bTurnLeft, bTurnRight)`. -/
def computeTurn (startingAngle destinationAngle : Int) : Bool × Bool :=
  let angleDistance := startingAngle - destinationAngle
  let absValueAngleDistance := angleDistance.natAbs
  let flags := if angleDistance > 0 then (true, false) else (false, true)
  if absValueAngleDistance > ANGLE_180_DEGREES.toNat then
    (!flags.1, !flags.2)
  else
    flags

/-- The angle-reached exit condition of the `DIRECTIONAL_ALIGN` branch:
`(currentAngle >= destinationAngle - 1) && (currentAngle <= destinationAngle + 1)`. -/
def angleReachedCondition (currentAngle destinationAngle : Int) : Bool :=
  (decide (currentAngle ≥ destinationAngle - 1)) &&
  (decide (currentAngle ≤ destinationAngle + 1))

/-- One control-loop invocation of `YtaRobot::DirectionalAlign`.  Returns
the new persistent state together with the drive commands issued this tick:
`some (left, right)` when both sides were commanded, `none` otherwise. -/
def alignTick (s : AlignState) (inp : AlignInput) : AlignState × Option (ℚ × ℚ) :=
  let bStateChangeAllowed := latchUpdate s.lastPovValue s.bStateChangeAllowed inp.povValue
  let lastPovValue := inp.povValue
  let timerValue := timerAdvance s.timerValue s.timerRunning inp.dt
  match s.driveState with
  | .MANUAL_CONTROL =>
    if bStateChangeAllowed then
      let destinationAngle := povToDestinationAngle inp.povValue
      let startingAngle := inp.heading
      let flags := computeTurn startingAngle destinationAngle
      let cmds :=
        if flags.1 then
          (DIRECTIONAL_ALIGN_DRIVE_SPEED * LEFT_DRIVE_REVERSE_SCALAR,
           DIRECTIONAL_ALIGN_DRIVE_SPEED * RIGHT_DRIVE_FORWARD_SCALAR)
        else
          (DIRECTIONAL_ALIGN_DRIVE_SPEED * LEFT_DRIVE_FORWARD_SCALAR,
           DIRECTIONAL_ALIGN_DRIVE_SPEED * RIGHT_DRIVE_REVERSE_SCALAR)
      ({ lastPovValue := lastPovValue
         bStateChangeAllowed := false
         destinationAngle := destinationAngle
         driveState := .DIRECTIONAL_ALIGN
         timerValue := timerValue
         timerRunning := true }, some cmds)
    else
      ({ s with
           lastPovValue := lastPovValue
           bStateChangeAllowed := bStateChangeAllowed
           timerValue := timerValue }, none)
  | .DIRECTIONAL_ALIGN =>
    let currentAngle := inp.heading
    if angleReachedCondition currentAngle s.destinationAngle
        || decide (timerValue > DIRECTIONAL_ALIGN_MAX_TIME_S)
        || bStateChangeAllowed then
      ({ lastPovValue := lastPovValue
         bStateChangeAllowed := false
         destinationAngle := -1
         driveState := .MANUAL_CONTROL
         timerValue := 0
         timerRunning := false }, some (OFF, OFF))
    else
      ({ s with
           lastPovValue := lastPovValue
           bStateChangeAllowed := bStateChangeAllowed
           timerValue := timerValue }, none)

/-- Number of ticks, over an input trace, on which an alignment request is
honored, i.e. the machine transitions `MANUAL_CONTROL → DIRECTIONAL_ALIGN`. -/
def countTriggers (s : AlignState) : List AlignInput → Nat
  | [] => 0
  | inp :: rest =>
    (if s.driveState = .MANUAL_CONTROL ∧
        (alignTick s inp).1.driveState = .DIRECTIONAL_ALIGN
     then 1 else 0) + countTriggers (alignTick s inp).1 rest

/-! ## DirectionalInch -/

/-- The four inching buttons polled by `YtaRobot::DirectionalInch`. -/
structure InchButtons where
  forward : Bool
  backward : Bool
  left : Bool
  right : Bool
  deriving DecidableEq, Repr

/-- `YtaRobot::DirectionalInch`.  The per-direction speed selection and the
early `false` return when both selected speeds are `0.0` mirror the source;
the observable behavior of the remainder (motors on, busy-wait on the
dedicated timer until `INCHING_DRIVE_DELAY_S`, motors off, return `true`)
is the ordered list of `(left, right)` command pairs issued. -/
def DirectionalInch (b : InchButtons) : Bool × List (ℚ × ℚ) :=
  let speeds :=
    if b.forward then
      (INCHING_DRIVE_SPEED * LEFT_DRIVE_FORWARD_SCALAR,
       INCHING_DRIVE_SPEED * RIGHT_DRIVE_FORWARD_SCALAR)
    else if b.backward then
      (INCHING_DRIVE_SPEED * LEFT_DRIVE_REVERSE_SCALAR,
       INCHING_DRIVE_SPEED * RIGHT_DRIVE_REVERSE_SCALAR)
    else if b.left then
      (INCHING_DRIVE_SPEED * LEFT_DRIVE_REVERSE_SCALAR,
       INCHING_DRIVE_SPEED * RIGHT_DRIVE_FORWARD_SCALAR)
    else if b.right then
      (INCHING_DRIVE_SPEED * LEFT_DRIVE_FORWARD_SCALAR,
       INCHING_DRIVE_SPEED * RIGHT_DRIVE_REVERSE_SCALAR)
    else
      ((0 : ℚ), (0 : ℚ))
  if speeds.1 = 0 ∧ speeds.2 = 0 then
    (false, [])
  else
    (true, [speeds, (OFF, OFF)])

/-! ## Helper lemmas -/

/-- The angle-reached condition holds when the heading equals the
destination. -/
lemma angleReachedCondition_self (d : Int) : angleReachedCondition d d = true := by
  simp only [angleReachedCondition, Bool.and_eq_true, decide_eq_true_eq]
  omega

/-- An unchanged POV reading leaves the latch unchanged. -/
lemma latchUpdate_same (lp : Int) (al : Bool) : latchUpdate lp al lp = al := by
  simp [latchUpdate]

/-- Releasing the POV (or keeping it released) never raises a lowered
latch. -/
lemma latchUpdate_neg_one (lp : Int) : latchUpdate lp false (-1) = false := by
  unfold latchUpdate
  split_ifs <;> simp_all

/-- A lowered latch stays lowered while the previous reading was a pressed
direction: only a press following a release raises it. -/
lemma latchUpdate_false_of_pressed (lp pov : Int) (hlp : lp ≠ -1) :
    latchUpdate lp false pov = false := by
  unfold latchUpdate
  split_ifs <;> simp_all

/-- A press from none raises the latch. -/
lemma latchUpdate_rising_edge (al : Bool) (pov : Int) (hp : pov ≠ -1) :
    latchUpdate (-1) al pov = true := by
  unfold latchUpdate
  split_ifs <;> simp_all

/-- In the `DIRECTIONAL_ALIGN` state, when the boolean exit condition of
the source holds, the tick performs the full exit: motors off, timer
stopped and reset, destination cleared, latch lowered, back to
`MANUAL_CONTROL`. -/
lemma alignTick_align_exit_of_cond (lp : Int) (al : Bool) (dest : Int) (tv : ℚ)
    (tr : Bool) (pov h : Int) (dt : ℚ)
    (hcond : (angleReachedCondition h dest
      || decide (timerAdvance tv tr dt > DIRECTIONAL_ALIGN_MAX_TIME_S)
      || latchUpdate lp al pov) = true) :
    alignTick ⟨lp, al, dest, .DIRECTIONAL_ALIGN, tv, tr⟩ ⟨pov, h, dt⟩ =
      (⟨pov, false, -1, .MANUAL_CONTROL, 0, false⟩, some (OFF, OFF)) := by
  simp only [alignTick]
  rw [if_pos hcond]

/-- In the `DIRECTIONAL_ALIGN` state, when none of the three exit
conditions holds the tick issues no commands and only records the new POV
reading, the updated latch and the advanced timer. -/
lemma alignTick_align_stay (lp : Int) (al : Bool) (dest : Int) (tv : ℚ)
    (tr : Bool) (pov h : Int) (dt : ℚ)
    (h1 : angleReachedCondition h dest = false)
    (h2 : ¬ timerAdvance tv tr dt > DIRECTIONAL_ALIGN_MAX_TIME_S)
    (h3 : latchUpdate lp al pov = false) :
    alignTick ⟨lp, al, dest, .DIRECTIONAL_ALIGN, tv, tr⟩ ⟨pov, h, dt⟩ =
      (⟨pov, false, dest, .DIRECTIONAL_ALIGN, timerAdvance tv tr dt, tr⟩, none) := by
  simp [alignTick, h3]
  exact ⟨h1, not_lt.mp h2⟩

/-- In the `DIRECTIONAL_ALIGN` state, the tick performs the full exit
(motors off, timer stopped and reset, destination cleared, latch lowered,
back to `MANUAL_CONTROL`) exactly when the angle-reached condition holds,
or the advanced safety timer exceeds the maximum, or the updated latch is
raised. -/
lemma alignTick_align_exit_iff (lp : Int) (al : Bool) (dest : Int) (tv : ℚ)
    (tr : Bool) (pov h : Int) (dt : ℚ) :
    alignTick ⟨lp, al, dest, .DIRECTIONAL_ALIGN, tv, tr⟩ ⟨pov, h, dt⟩ =
        (⟨pov, false, -1, .MANUAL_CONTROL, 0, false⟩, some (OFF, OFF)) ↔
      (angleReachedCondition h dest = true ∨
       timerAdvance tv tr dt > DIRECTIONAL_ALIGN_MAX_TIME_S ∨
       latchUpdate lp al pov = true) := by
  constructor
  · intro hEq
    by_contra hC
    push_neg at hC
    obtain ⟨h1, h2, h3⟩ := hC
    rw [alignTick_align_stay lp al dest tv tr pov h dt (by simpa using h1)
      (not_lt.mpr h2) (by simpa using h3)] at hEq
    simp at hEq
  · intro hOr
    refine alignTick_align_exit_of_cond lp al dest tv tr pov h dt ?_
    rcases hOr with h1 | h2 | h3
    · simp [h1]
    · simp [h2]
    · simp [h3]

/-- In the `MANUAL_CONTROL` state, a lowered latch makes the tick a no-op
apart from bookkeeping. -/
lemma alignTick_manual_stay (lp : Int) (al : Bool) (dest : Int) (tv : ℚ)
    (tr : Bool) (pov h : Int) (dt : ℚ)
    (h3 : latchUpdate lp al pov = false) :
    alignTick ⟨lp, al, dest, .MANUAL_CONTROL, tv, tr⟩ ⟨pov, h, dt⟩ =
      (⟨pov, false, dest, .MANUAL_CONTROL, timerAdvance tv tr dt, tr⟩, none) := by
  simp [alignTick, h3]

/-- In the `MANUAL_CONTROL` state, a raised latch starts an alignment:
destination computed from the POV, drive commands mirrored for the chosen
turn direction, safety timer started, latch lowered, state advanced. -/
lemma alignTick_manual_trigger (lp : Int) (al : Bool) (dest : Int) (tv : ℚ)
    (tr : Bool) (pov h : Int) (dt : ℚ)
    (h3 : latchUpdate lp al pov = true) :
    alignTick ⟨lp, al, dest, .MANUAL_CONTROL, tv, tr⟩ ⟨pov, h, dt⟩ =
      (⟨pov, false, povToDestinationAngle pov, .DIRECTIONAL_ALIGN,
          timerAdvance tv tr dt, true⟩,
        some (if (computeTurn h (povToDestinationAngle pov)).1 then
            (DIRECTIONAL_ALIGN_DRIVE_SPEED * LEFT_DRIVE_REVERSE_SCALAR,
             DIRECTIONAL_ALIGN_DRIVE_SPEED * RIGHT_DRIVE_FORWARD_SCALAR)
          else
            (DIRECTIONAL_ALIGN_DRIVE_SPEED * LEFT_DRIVE_FORWARD_SCALAR,
             DIRECTIONAL_ALIGN_DRIVE_SPEED * RIGHT_DRIVE_REVERSE_SCALAR))) := by
  simp [alignTick, h3]

/-- Every tick records the current POV reading as the new `lastPovValue`. -/
lemma alignTick_lastPovValue (s : AlignState) (inp : AlignInput) :
    (alignTick s inp).1.lastPovValue = inp.povValue := by
  rcases s with ⟨lp, al, dest, ds, tv, tr⟩
  cases ds <;> simp only [alignTick] <;> split <;> rfl

/-- A tick whose updated latch is lowered ends with the latch lowered. -/
lemma alignTick_latch_false (s : AlignState) (inp : AlignInput)
    (h : latchUpdate s.lastPovValue s.bStateChangeAllowed inp.povValue = false) :
    (alignTick s inp).1.bStateChangeAllowed = false := by
  rcases s with ⟨lp, al, dest, ds, tv, tr⟩
  rcases inp with ⟨pov, hd, dt⟩
  simp only at h
  cases ds
  case MANUAL_CONTROL =>
    rw [alignTick_manual_stay lp al dest tv tr pov hd dt h]
  case DIRECTIONAL_ALIGN =>
    by_cases hc : (angleReachedCondition hd dest
        || decide (timerAdvance tv tr dt > DIRECTIONAL_ALIGN_MAX_TIME_S)
        || latchUpdate lp al pov) = true
    · rw [alignTick_align_exit_of_cond lp al dest tv tr pov hd dt hc]
    · rw [Bool.not_eq_true, Bool.or_eq_false_iff, Bool.or_eq_false_iff] at hc
      rw [alignTick_align_stay lp al dest tv tr pov hd dt hc.1.1
        (by simpa using hc.1.2) hc.2]

/-- A tick taken in `MANUAL_CONTROL` with a lowered updated latch stays in
`MANUAL_CONTROL`. -/
lemma alignTick_manual_stays_manual (s : AlignState) (inp : AlignInput)
    (hds : s.driveState = .MANUAL_CONTROL)
    (h : latchUpdate s.lastPovValue s.bStateChangeAllowed inp.povValue = false) :
    (alignTick s inp).1.driveState = .MANUAL_CONTROL := by
  rcases s with ⟨lp, al, dest, ds, tv, tr⟩
  rcases inp with ⟨pov, hd, dt⟩
  simp only at h hds
  subst hds
  rw [alignTick_manual_stay lp al dest tv tr pov hd dt h]

/-- While the latch is lowered and the POV is held at the same pressed
value, no tick of the state machine honors an alignment request. -/
lemma countTriggers_eq_zero (p : Int) (inps : List AlignInput) :
    (∀ i ∈ inps, i.povValue = p) →
    ∀ s : AlignState, s.lastPovValue = p → s.bStateChangeAllowed = false →
    countTriggers s inps = 0 := by
  induction inps with
  | nil => intro _ s _ _; rfl
  | cons inp rest ih =>
    intro hpov s hlp hal
    have hipov : inp.povValue = p := hpov inp (List.mem_cons_self _ _)
    have hlatch : latchUpdate s.lastPovValue s.bStateChangeAllowed inp.povValue = false := by
      rw [hlp, hal, hipov]
      exact latchUpdate_same p false
    have h1 : (alignTick s inp).1.lastPovValue = p := by
      rw [alignTick_lastPovValue]; exact hipov
    have h2 : (alignTick s inp).1.bStateChangeAllowed = false :=
      alignTick_latch_false s inp hlatch
    have hrest := ih (fun i hi => hpov i (List.mem_cons_of_mem _ hi))
      (alignTick s inp).1 h1 h2
    unfold countTriggers
    rw [hrest]
    rcases hds : s.driveState
    case MANUAL_CONTROL =>
      have := alignTick_manual_stays_manual s inp hds hlatch
      simp [this]
    case DIRECTIONAL_ALIGN =>
      simp [hds]

/-! ## Claim theorems -/

/-- C1 counterexample: in the group built by
`TalonMotorGroup(2, 10, CUSTOM)`, the motor with CAN id 11 has control mode
`CUSTOM`, yet `Set(0.5)` issues the software command `(11, 0)` to its
controller — contradicting the claim that a `CUSTOM` entry receives no
software `Set` call.  (The `default` case of the switch leaves `bCallSet`
true, so `Set(ControlMode::PercentOutput, 0.0)` is still called.) -/
theorem C1_counterexample_custom_is_commanded :
    (⟨.CUSTOM, 11⟩ : MotorInfo) ∈ (TalonMotorGroup.create 2 10 .CUSTOM).motorsInfo ∧
    (TalonMotorGroup.create 2 10 .CUSTOM).Set (1/2) 0 = [(10, 1/2), (11, 0)] := by
  exact ⟨by decide, rfl⟩

/-- C1 (amended): a `CUSTOM` entry is not inert — on every
`Set(value, offset)` call its controller receives the command `0.0`
(the untouched default `valueToSet`), regardless of `value` and `offset`. -/
theorem C1_amended_custom_commanded_zero (g : TalonMotorGroup) (value offset : ℚ)
    (m : MotorInfo) (hm : m ∈ g.motorsInfo) (hmode : m.controlMode = .CUSTOM) :
    (m.canId, (0 : ℚ)) ∈ g.Set value offset := by
  unfold TalonMotorGroup.Set
  refine List.mem_filterMap.mpr ⟨m, hm, ?_⟩
  rcases m with ⟨mode, cid⟩
  simp only at hmode
  subst hmode
  rfl

/-- Witness for C1 (amended): applied to the concrete `CUSTOM` group. -/
theorem C1_amended_custom_commanded_zero_witness :
    ((11 : Int), (0 : ℚ)) ∈ (TalonMotorGroup.create 2 10 .CUSTOM).Set (1/2) 0 :=
  C1_amended_custom_commanded_zero (TalonMotorGroup.create 2 10 .CUSTOM) (1/2) 0
    ⟨.CUSTOM, 11⟩ (by decide) rfl

/-- C3 evaluated at the failing input `TalonMotorGroup(5, 10, INDEPENDENT)`:
the stored motor count `m_NumMotors` is the unclamped 5 while only
`min(5, MAX_NUMBER_OF_MOTORS) = 4` motors were constructed, so every
subsequent operation (`Set`, `SetBrakeMode`, `SetCoastMode`,
`SetMotorInGroupControlMode`), all of which loop `for (i = 0; i < m_NumMotors; i++)`,
iterates over five array slots of the four-element `m_pMotorsInfo` — one
past the constructed entries and past the array itself. -/
theorem C3_unclamped_stored_count :
    (TalonMotorGroup.create 5 10 .INDEPENDENT).numMotors = 5 ∧
    (TalonMotorGroup.create 5 10 .INDEPENDENT).motorsInfo.length = 4 ∧
    ¬ (TalonMotorGroup.create 5 10 .INDEPENDENT).numMotors =
        min 5 TalonMotorGroup.MAX_NUMBER_OF_MOTORS := by
  refine ⟨rfl, by decide, by decide⟩

/-- C4: `Set(value, offset)` commands a `MASTER` or `INDEPENDENT` motor with
`value`, an `INVERSE` motor with `-value`, an `INDEPENDENT_OFFSET` motor
with `value + offset`, an `INVERSE_OFFSET` motor with `-(value + offset)`,
and issues no software command to a `FOLLOW` motor; and the group created
by `TalonMotorGroup(2, 10, INVERSE)` on `Set(-0.3)` issues exactly the
commands `(10, -0.3)` and `(11, 0.3)`. -/
theorem C4_group_coordination (m : MotorInfo) (value offset : ℚ) :
    (m.controlMode = .MASTER ∨ m.controlMode = .INDEPENDENT →
      TalonMotorGroup.motorSetCommand m value offset = some (m.canId, value)) ∧
    (m.controlMode = .INVERSE →
      TalonMotorGroup.motorSetCommand m value offset = some (m.canId, -value)) ∧
    (m.controlMode = .INDEPENDENT_OFFSET →
      TalonMotorGroup.motorSetCommand m value offset = some (m.canId, value + offset)) ∧
    (m.controlMode = .INVERSE_OFFSET →
      TalonMotorGroup.motorSetCommand m value offset = some (m.canId, -(value + offset))) ∧
    (m.controlMode = .FOLLOW →
      TalonMotorGroup.motorSetCommand m value offset = none) ∧
    (TalonMotorGroup.create 2 10 .INVERSE).Set (-3/10) 0 = [(10, -3/10), (11, 3/10)] := by
  rcases m with ⟨mode, cid⟩
  refine ⟨?_, ?_, ?_, ?_, ?_, ?_⟩
  · rintro (h | h) <;> cases mode <;> simp_all [TalonMotorGroup.motorSetCommand]
  · intro h; cases mode <;> simp_all [TalonMotorGroup.motorSetCommand]
  · intro h; cases mode <;> simp_all [TalonMotorGroup.motorSetCommand]
  · intro h; cases mode <;> simp_all [TalonMotorGroup.motorSetCommand]
  · intro h; cases mode <;> simp_all [TalonMotorGroup.motorSetCommand]
  · have hS : (TalonMotorGroup.create 2 10 .INVERSE).Set (-3/10) 0 =
        [(10, -3/10), (11, -(-3/10))] := rfl
    rw [hS]
    norm_num

/-- Witness for C4: each per-mode command evaluated at a concrete motor. -/
theorem C4_group_coordination_witness :
    TalonMotorGroup.motorSetCommand ⟨.MASTER, 10⟩ (1/2) 0 = some (10, 1/2) ∧
    TalonMotorGroup.motorSetCommand ⟨.INVERSE, 11⟩ (1/2) 0 = some (11, -(1/2)) ∧
    TalonMotorGroup.motorSetCommand ⟨.INDEPENDENT_OFFSET, 12⟩ (1/2) (1/5) =
      some (12, 1/2 + 1/5) ∧
    TalonMotorGroup.motorSetCommand ⟨.INVERSE_OFFSET, 13⟩ (1/2) (1/5) =
      some (13, -(1/2 + 1/5)) ∧
    TalonMotorGroup.motorSetCommand ⟨.FOLLOW, 14⟩ (1/2) 0 = none :=
  ⟨(C4_group_coordination ⟨.MASTER, 10⟩ (1/2) 0).1 (Or.inl rfl),
   (C4_group_coordination ⟨.INVERSE, 11⟩ (1/2) 0).2.1 rfl,
   (C4_group_coordination ⟨.INDEPENDENT_OFFSET, 12⟩ (1/2) (1/5)).2.2.1 rfl,
   (C4_group_coordination ⟨.INVERSE_OFFSET, 13⟩ (1/2) (1/5)).2.2.2.1 rfl,
   (C4_group_coordination ⟨.FOLLOW, 14⟩ (1/2) 0).2.2.2.2.1 rfl⟩

/-- C8: `AddMotorToGroup(mode)` fails (returns `false` and changes nothing)
when the stored motor count has reached `MAX_NUMBER_OF_MOTORS`; otherwise
it appends one motor whose CAN id is the first motor's id plus the current
count, increments the count, and returns `true`. -/
theorem C8_add_motor_capacity (g : TalonMotorGroup) (mode : MotorGroupControlMode) :
    (TalonMotorGroup.MAX_NUMBER_OF_MOTORS ≤ g.numMotors →
      g.AddMotorToGroup mode = (false, g)) ∧
    (g.numMotors < TalonMotorGroup.MAX_NUMBER_OF_MOTORS →
      g.AddMotorToGroup mode =
        (true, { g with
            motorsInfo := g.motorsInfo ++ [⟨mode, g.firstCanId + g.numMotors⟩]
            numMotors := g.numMotors + 1 })) := by
  constructor
  · intro hge
    unfold TalonMotorGroup.AddMotorToGroup
    rw [if_neg (not_lt.mpr hge)]
  · intro hlt
    unfold TalonMotorGroup.AddMotorToGroup
    rw [if_pos hlt]

/-- Witness for C8: a full group of four rejects a fifth motor unchanged;
a group of two accepts a third with CAN id `10 + 2 = 12`. -/
theorem C8_add_motor_capacity_witness :
    (TalonMotorGroup.create 4 10 .FOLLOW).AddMotorToGroup .INDEPENDENT =
      (false, TalonMotorGroup.create 4 10 .FOLLOW) ∧
    ((TalonMotorGroup.create 2 10 .FOLLOW).AddMotorToGroup .INDEPENDENT).1 = true :=
  ⟨(C8_add_motor_capacity (TalonMotorGroup.create 4 10 .FOLLOW) .INDEPENDENT).1
      (by decide),
   by rw [(C8_add_motor_capacity (TalonMotorGroup.create 2 10 .FOLLOW) .INDEPENDENT).2
      (by decide)]⟩

/-- C2 counterexample: in state `DIRECTIONAL_ALIGN` (destination 180°,
heading 0°, POV held at 0 on the previous tick, timer at 0), releasing the
input this tick (POV reads −1) makes the latch go false due to input
release — yet the machine does **not** exit: it stays in
`DIRECTIONAL_ALIGN`, issues no stop command, and leaves the safety timer
running.  The source's third exit condition is `bStateChangeAllowed` being
**true**, which a release never produces. -/
theorem C2_counterexample_release_does_not_exit :
    alignTick ⟨0, false, 180, .DIRECTIONAL_ALIGN, 0, true⟩ ⟨-1, 0, 0⟩ =
      (⟨-1, false, 180, .DIRECTIONAL_ALIGN, timerAdvance 0 true 0, true⟩, none) ∧
    (alignTick ⟨0, false, 180, .DIRECTIONAL_ALIGN, 0, true⟩ ⟨-1, 0, 0⟩).1.driveState =
      .DIRECTIONAL_ALIGN := by
  have hstay := alignTick_align_stay 0 false 180 0 true (-1) 0 0 (by decide)
    (by norm_num [timerAdvance, DIRECTIONAL_ALIGN_MAX_TIME_S]) (latchUpdate_neg_one 0)
  exact ⟨hstay, by rw [hstay]⟩

/-- C2 (amended): a `DIRECTIONAL_ALIGN` tick exits back to
`MANUAL_CONTROL`, stops both drive sides and resets the safety timer
exactly when any of: the heading is within ±1° of `destinationAngle`; the
safety timer has exceeded the maximum duration; or the state-change latch
is **true** after this tick's edge update — which happens only when the
directional input is pressed afresh after having been released (a fresh
press cancels the turn; merely releasing the input does not). -/
theorem C2_amended_align_exit_characterization (lp : Int) (al : Bool) (dest : Int)
    (tv : ℚ) (tr : Bool) (pov hAngle : Int) (dt : ℚ) :
    alignTick ⟨lp, al, dest, .DIRECTIONAL_ALIGN, tv, tr⟩ ⟨pov, hAngle, dt⟩ =
        (⟨pov, false, -1, .MANUAL_CONTROL, 0, false⟩, some (OFF, OFF)) ↔
      (angleReachedCondition hAngle dest = true ∨
       timerAdvance tv tr dt > DIRECTIONAL_ALIGN_MAX_TIME_S ∨
       latchUpdate lp al pov = true) :=
  alignTick_align_exit_iff lp al dest tv tr pov hAngle dt

/-- C5: the chosen direction is left exactly when the exclusive-or of
`angleDistance > 0` and `|angleDistance| > 180` holds (turn left if the
distance is positive, else right, inverted when the absolute distance
exceeds 180), and right is always the opposite flag; in particular heading
350° with destination 0° turns right, and heading 10° with destination
270° turns left. -/
theorem C5_turn_direction_choice (startingAngle destinationAngle : Int) :
    computeTurn startingAngle destinationAngle =
      (((decide (startingAngle - destinationAngle > 0)).xor
          (decide ((startingAngle - destinationAngle).natAbs > ANGLE_180_DEGREES.toNat))),
       !((decide (startingAngle - destinationAngle > 0)).xor
          (decide ((startingAngle - destinationAngle).natAbs > ANGLE_180_DEGREES.toNat)))) ∧
    computeTurn 350 0 = (false, true) ∧
    computeTurn 10 270 = (true, false) := by
  refine ⟨?_, by decide, by decide⟩
  unfold computeTurn
  by_cases h1 : startingAngle - destinationAngle > 0 <;>
    by_cases h2 : (startingAngle - destinationAngle).natAbs > ANGLE_180_DEGREES.toNat <;>
      simp [h1, h2]

/-- C6: (termination) a `DIRECTIONAL_ALIGN` tick fed a heading equal to
`destinationAngle` exits to `MANUAL_CONTROL` commanding both sides to
`OFF`, and — provided the next tick's POV is the same reading or a release,
so no fresh alignment request intervenes — the next tick stays in
`MANUAL_CONTROL` (alignment reported inactive) issuing no commands;
(timeout) when the heading is outside the destination band and the safety
timer exceeds the maximum, the tick exits to `MANUAL_CONTROL` with both
sides commanded `OFF`. -/
theorem C6_alignment_termination :
    (∀ (lp : Int) (al : Bool) (dest : Int) (tv : ℚ) (tr : Bool)
        (pov : Int) (dt : ℚ) (pov2 hAngle2 : Int) (dt2 : ℚ),
      pov2 = pov ∨ pov2 = -1 →
      (alignTick ⟨lp, al, dest, .DIRECTIONAL_ALIGN, tv, tr⟩ ⟨pov, dest, dt⟩).1.driveState
          = .MANUAL_CONTROL ∧
      (alignTick ⟨lp, al, dest, .DIRECTIONAL_ALIGN, tv, tr⟩ ⟨pov, dest, dt⟩).2
          = some (OFF, OFF) ∧
      (alignTick (alignTick ⟨lp, al, dest, .DIRECTIONAL_ALIGN, tv, tr⟩ ⟨pov, dest, dt⟩).1
          ⟨pov2, hAngle2, dt2⟩).1.driveState = .MANUAL_CONTROL ∧
      (alignTick (alignTick ⟨lp, al, dest, .DIRECTIONAL_ALIGN, tv, tr⟩ ⟨pov, dest, dt⟩).1
          ⟨pov2, hAngle2, dt2⟩).2 = none) ∧
    (∀ (lp : Int) (al : Bool) (dest : Int) (tv : ℚ) (tr : Bool)
        (pov hAngle : Int) (dt : ℚ),
      angleReachedCondition hAngle dest = false →
      timerAdvance tv tr dt > DIRECTIONAL_ALIGN_MAX_TIME_S →
      alignTick ⟨lp, al, dest, .DIRECTIONAL_ALIGN, tv, tr⟩ ⟨pov, hAngle, dt⟩ =
        (⟨pov, false, -1, .MANUAL_CONTROL, 0, false⟩, some (OFF, OFF))) := by
  constructor
  · intro lp al dest tv tr pov dt pov2 hAngle2 dt2 hpov2
    have hexit := alignTick_align_exit_of_cond lp al dest tv tr pov dest dt
      (by simp [angleReachedCondition_self])
    have hfst : (alignTick ⟨lp, al, dest, .DIRECTIONAL_ALIGN, tv, tr⟩ ⟨pov, dest, dt⟩).1 =
        ⟨pov, false, -1, .MANUAL_CONTROL, 0, false⟩ := by rw [hexit]
    have hl : latchUpdate pov false pov2 = false := by
      rcases hpov2 with hposame | hporel
      · subst hposame; exact latchUpdate_same pov2 false
      · subst hporel; exact latchUpdate_neg_one pov
    have hstay := alignTick_manual_stay pov false (-1) 0 false pov2 hAngle2 dt2 hl
    refine ⟨by rw [hexit], by rw [hexit], ?_, ?_⟩
    · rw [hfst, hstay]
    · rw [hfst, hstay]
  · intro lp al dest tv tr pov hAngle dt hband ht
    exact alignTick_align_exit_of_cond lp al dest tv tr pov hAngle dt (by simp [ht])

/-- Witness for C6: destination 90° reached exactly (first part, with the
POV held), and a timed-out unfinished turn toward 0° (second part). -/
theorem C6_alignment_termination_witness :
    ((alignTick ⟨0, false, 90, .DIRECTIONAL_ALIGN, 0, true⟩ ⟨0, 90, 0⟩).1.driveState
        = .MANUAL_CONTROL ∧
     (alignTick ⟨0, false, 90, .DIRECTIONAL_ALIGN, 0, true⟩ ⟨0, 90, 0⟩).2
        = some (OFF, OFF) ∧
     (alignTick (alignTick ⟨0, false, 90, .DIRECTIONAL_ALIGN, 0, true⟩ ⟨0, 90, 0⟩).1
        ⟨0, 45, 0⟩).1.driveState = .MANUAL_CONTROL ∧
     (alignTick (alignTick ⟨0, false, 90, .DIRECTIONAL_ALIGN, 0, true⟩ ⟨0, 90, 0⟩).1
        ⟨0, 45, 0⟩).2 = none) ∧
    alignTick ⟨0, false, 0, .DIRECTIONAL_ALIGN, 4, true⟩ ⟨0, 90, 0⟩ =
      (⟨0, false, -1, .MANUAL_CONTROL, 0, false⟩, some (OFF, OFF)) :=
  ⟨C6_alignment_termination.1 0 false 90 0 true 0 0 0 45 0 (Or.inl rfl),
   C6_alignment_termination.2 0 false 0 4 true 0 90 0 (by decide)
     (by norm_num [timerAdvance, DIRECTIONAL_ALIGN_MAX_TIME_S])⟩

/-- C7: starting from `MANUAL_CONTROL` with the POV previously unpressed,
holding one directional input `p` through any number of consecutive ticks
(whatever the headings and elapsed times, so in particular through the
whole turn and past its completion) honors exactly one alignment request. -/
theorem C7_hold_triggers_exactly_once (p : Int) (hp : p ≠ -1)
    (inps : List AlignInput) (hpov : ∀ i ∈ inps, i.povValue = p) (hne : inps ≠ [])
    (al : Bool) (dest : Int) (tv : ℚ) (tr : Bool) :
    countTriggers ⟨-1, al, dest, .MANUAL_CONTROL, tv, tr⟩ inps = 1 := by
  rcases inps with _ | ⟨inp, rest⟩
  · exact absurd rfl hne
  rcases inp with ⟨pov, hd, dt⟩
  have hipov : pov = p := hpov ⟨pov, hd, dt⟩ (List.mem_cons_self _ _)
  subst hipov
  have hlatch : latchUpdate (-1) al pov = true := latchUpdate_rising_edge al pov hp
  unfold countTriggers
  rw [alignTick_manual_trigger (-1) al dest tv tr pov hd dt hlatch]
  have hzero := countTriggers_eq_zero pov rest
    (fun i hi => hpov i (List.mem_cons_of_mem _ hi))
    ⟨pov, false, povToDestinationAngle pov, .DIRECTIONAL_ALIGN, timerAdvance tv tr dt, true⟩
    rfl rfl
  simp [hzero]

/-- Witness for C7: POV held at 0° for three consecutive ticks honors one
alignment request. -/
theorem C7_hold_triggers_exactly_once_witness :
    countTriggers ⟨-1, false, -1, .MANUAL_CONTROL, 0, false⟩
      [⟨0, 50, 0⟩, ⟨0, 50, 0⟩, ⟨0, 50, 0⟩] = 1 :=
  C7_hold_triggers_exactly_once 0 (by decide)
    [⟨0, 50, 0⟩, ⟨0, 50, 0⟩, ⟨0, 50, 0⟩] (by simp) (by simp) false (-1) 0 false

/-- C9: with no inching button active, `DirectionalInch` reports `false`
immediately and issues no motor command; with an inching button active
(taking the source's priority order forward, backward, left, right) it
issues the per-side scaled inching speeds for that direction followed by
both sides `OFF`, and reports `true`. -/
theorem C9_directional_inch (b : InchButtons) :
    (b.forward = false → b.backward = false → b.left = false → b.right = false →
      DirectionalInch b = (false, [])) ∧
    (b.forward = true →
      DirectionalInch b = (true,
        [(INCHING_DRIVE_SPEED * LEFT_DRIVE_FORWARD_SCALAR,
          INCHING_DRIVE_SPEED * RIGHT_DRIVE_FORWARD_SCALAR), (OFF, OFF)])) ∧
    (b.forward = false → b.backward = true →
      DirectionalInch b = (true,
        [(INCHING_DRIVE_SPEED * LEFT_DRIVE_REVERSE_SCALAR,
          INCHING_DRIVE_SPEED * RIGHT_DRIVE_REVERSE_SCALAR), (OFF, OFF)])) ∧
    (b.forward = false → b.backward = false → b.left = true →
      DirectionalInch b = (true,
        [(INCHING_DRIVE_SPEED * LEFT_DRIVE_REVERSE_SCALAR,
          INCHING_DRIVE_SPEED * RIGHT_DRIVE_FORWARD_SCALAR), (OFF, OFF)])) ∧
    (b.forward = false → b.backward = false → b.left = false → b.right = true →
      DirectionalInch b = (true,
        [(INCHING_DRIVE_SPEED * LEFT_DRIVE_FORWARD_SCALAR,
          INCHING_DRIVE_SPEED * RIGHT_DRIVE_REVERSE_SCALAR), (OFF, OFF)])) := by
  rcases b with ⟨bf, bb, bl, br⟩
  refine ⟨?_, ?_, ?_, ?_, ?_⟩
  · intro h1 h2 h3 h4
    subst h1; subst h2; subst h3; subst h4
    norm_num [DirectionalInch]
  · intro h1
    subst h1
    norm_num [DirectionalInch, INCHING_DRIVE_SPEED, LEFT_DRIVE_FORWARD_SCALAR,
      RIGHT_DRIVE_FORWARD_SCALAR]
  · intro h1 h2
    subst h1; subst h2
    norm_num [DirectionalInch, INCHING_DRIVE_SPEED, LEFT_DRIVE_REVERSE_SCALAR,
      RIGHT_DRIVE_REVERSE_SCALAR]
  · intro h1 h2 h3
    subst h1; subst h2; subst h3
    norm_num [DirectionalInch, INCHING_DRIVE_SPEED, LEFT_DRIVE_REVERSE_SCALAR,
      RIGHT_DRIVE_FORWARD_SCALAR]
  · intro h1 h2 h3 h4
    subst h1; subst h2; subst h3; subst h4
    norm_num [DirectionalInch, INCHING_DRIVE_SPEED, LEFT_DRIVE_FORWARD_SCALAR,
      RIGHT_DRIVE_REVERSE_SCALAR]

/-- Witness for C9: each button configuration evaluated concretely. -/
theorem C9_directional_inch_witness :
    DirectionalInch ⟨false, false, false, false⟩ = (false, []) ∧
    DirectionalInch ⟨true, false, false, false⟩ = (true,
      [(INCHING_DRIVE_SPEED * LEFT_DRIVE_FORWARD_SCALAR,
        INCHING_DRIVE_SPEED * RIGHT_DRIVE_FORWARD_SCALAR), (OFF, OFF)]) ∧
    DirectionalInch ⟨false, true, false, false⟩ = (true,
      [(INCHING_DRIVE_SPEED * LEFT_DRIVE_REVERSE_SCALAR,
        INCHING_DRIVE_SPEED * RIGHT_DRIVE_REVERSE_SCALAR), (OFF, OFF)]) ∧
    DirectionalInch ⟨false, false, true, false⟩ = (true,
      [(INCHING_DRIVE_SPEED * LEFT_DRIVE_REVERSE_SCALAR,
        INCHING_DRIVE_SPEED * RIGHT_DRIVE_FORWARD_SCALAR), (OFF, OFF)]) ∧
    DirectionalInch ⟨false, false, false, true⟩ = (true,
      [(INCHING_DRIVE_SPEED * LEFT_DRIVE_FORWARD_SCALAR,
        INCHING_DRIVE_SPEED * RIGHT_DRIVE_REVERSE_SCALAR), (OFF, OFF)]) :=
  ⟨(C9_directional_inch ⟨false, false, false, false⟩).1 rfl rfl rfl rfl,
   (C9_directional_inch ⟨true, false, false, false⟩).2.1 rfl,
   (C9_directional_inch ⟨false, true, false, false⟩).2.2.1 rfl rfl,
   (C9_directional_inch ⟨false, false, true, false⟩).2.2.2.1 rfl rfl rfl,
   (C9_directional_inch ⟨false, false, false, true⟩).2.2.2.2 rfl rfl rfl rfl⟩

/-- C10: with destination 0°, the angle-reached exit condition over integer
headings in `[0, 360)` holds exactly for headings 0 and 1; heading 359° —
one degree away around the circle — never satisfies it, and a
`DIRECTIONAL_ALIGN` tick at heading 359° with no timeout and no fresh press
stays in `DIRECTIONAL_ALIGN` (so such an alignment can end only through
the safety timer or a cancelling press). -/
theorem C10_no_wraparound_at_zero :
    (∀ hAngle : Int, 0 ≤ hAngle → hAngle < 360 →
      (angleReachedCondition hAngle 0 = true ↔ (hAngle = 0 ∨ hAngle = 1))) ∧
    angleReachedCondition 359 0 = false ∧
    (∀ (lp : Int) (al : Bool) (tv : ℚ) (tr : Bool) (pov : Int) (dt : ℚ),
      latchUpdate lp al pov = false →
      ¬ timerAdvance tv tr dt > DIRECTIONAL_ALIGN_MAX_TIME_S →
      alignTick ⟨lp, al, 0, .DIRECTIONAL_ALIGN, tv, tr⟩ ⟨pov, 359, dt⟩ =
        (⟨pov, false, 0, .DIRECTIONAL_ALIGN, timerAdvance tv tr dt, tr⟩, none)) := by
  refine ⟨?_, by decide, ?_⟩
  · intro hAngle h0 h360
    simp only [angleReachedCondition, Bool.and_eq_true, decide_eq_true_eq]
    omega
  · intro lp al tv tr pov dt hl ht
    exact alignTick_align_stay lp al 0 tv tr pov 359 dt (by decide) ht hl

/-- Witness for C10: heading 359° fails the band at destination 0 and the
tick stays in the alignment state. -/
theorem C10_no_wraparound_at_zero_witness :
    (angleReachedCondition 359 0 = true ↔ ((359 : Int) = 0 ∨ (359 : Int) = 1)) ∧
    alignTick ⟨0, false, 0, .DIRECTIONAL_ALIGN, 0, true⟩ ⟨0, 359, 0⟩ =
      (⟨0, false, 0, .DIRECTIONAL_ALIGN, timerAdvance 0 true 0, true⟩, none) :=
  ⟨C10_no_wraparound_at_zero.1 359 (by decide) (by decide),
   C10_no_wraparound_at_zero.2.2 0 false 0 true 0 0 (by decide)
     (by norm_num [timerAdvance, DIRECTIONAL_ALIGN_MAX_TIME_S])⟩

end YtaRobot2020
